import Mathlib

/-!
Verification of the cyverse-de/user-info service core logic.

Shallow embedding of:
  * the preferences envelope logic (convertPrefs in the preferences code),
  * the bags store and default-bag management (bagsdb.go) together with the
    default-bag HTTP handler flow (bags.go),
  * the global-alerts store (alertsdb.go),
  * the preferences DELETE handler flow.

Database tables are modelled as lists of rows; SQL lookups joining on
columns with uniqueness constraints (users.username, default_bags.user_id,
bags.id primary key) are modelled as first-match association-list lookups.
Machine-level details (timestamps) are modelled as integers; Go nil
pointers are modelled as Option; Go runtime panics are modelled as an
explicit result constructor distinct from returned errors.
-/

namespace UserInfo

/-! ### JSON values as decoded by Go encoding/json into interface values -/

/-- A Go value produced by json.Unmarshal into an interface value:
null, bool, number, string, array, or object (a Go map, modelled as an
association list with unique keys, as produced by the JSON decoder). -/
inductive GoVal where
  | null
  | boolean (b : Bool)
  | num (n : Int)
  | str (s : String)
  | arr (xs : List GoVal)
  | obj (fields : List (String × GoVal))
deriving Repr

/-- Lookup in a decoded Go map (keys are unique, first match). -/
def goLookup : List (String × GoVal) → String → Option GoVal
  | [], _ => none
  | (k, v) :: rest, key => if k = key then some v else goLookup rest key

/-- The outcome of json.Unmarshal on the stored Preferences string of a
UserPreferencesRecord: the string is empty (unmarshal skipped, the Go map
stays nil), it is non-empty but does not decode into a Go map (unmarshal
returns an error), or it decodes into a top-level object. -/
inductive PrefsPayload where
  | empty
  | malformed
  | parsed (m : List (String × GoVal))

/-- Result of running convertPrefs: a returned map, a returned error, or a
runtime panic (the unchecked type assertion on the wrapped value). -/
inductive ConvResult where
  | ok (m : List (String × GoVal))
  | errored
  | panicked
deriving Repr

/-- The wrap/unwrap body of convertPrefs, operating on the decoded map
(`values` in the source; the nil map of the empty-payload case is the
empty list here). Mirrors searchesdb.go convertPrefs lines 177-194. -/
def convertPrefsBody (values : List (String × GoVal)) (wrap : Bool) : ConvResult :=
  if !wrap then
    -- unwrap: values["preferences"].(map[string]interface) -- panics if the
    -- entry is present but is not an object
    match goLookup values "preferences" with
    | some (GoVal.obj inner) => .ok inner
    | some _ => .panicked
    | none => .ok values
  else
    -- wrap: if not already wrapped, build a one-entry map
    match goLookup values "preferences" with
    | none => .ok [("preferences", GoVal.obj values)]
    | some _ => .ok values

/-- convertPrefs from searchesdb.go lines 166-195: empty payload skips
unmarshalling (nil map), a failed unmarshal returns the error, otherwise
the wrap/unwrap body runs on the decoded map. -/
def convertPrefs (input : PrefsPayload) (wrap : Bool) : ConvResult :=
  match input with
  | .malformed => .errored
  | .empty => convertPrefsBody [] wrap
  | .parsed m => convertPrefsBody m wrap

/-! ### Bags store (bagsdb.go) -/

/-- Result of a database-backed operation: a value, or a returned error
(query errors, sql.ErrNoRows, unknown user in queries.UserID). -/
inductive DBRes (α : Type) where
  | ok (a : α)
  | err
deriving Repr

/-- A row of the bags table and also the BagRecord returned to callers.
Bag ids are database-generated keys, modelled as naturals; contents is the
raw JSON text stored in the contents column (Scan decodes and Value
re-encodes it; the round trip is the identity for the states considered). -/
structure BagRecord where
  id : Nat
  contents : String
  userId : String
deriving Repr, DecidableEq

/-- The relational state behind BagsAPI: the users table (username to
users.id; usernames are unique), the bags table, the default_bags mapping
table (user_id to bag_id, unique user_id enforced by ON CONFLICT), and the
id sequence feeding `INSERT INTO bags ... RETURNING id`. -/
structure BagsState where
  users : List (String × String)
  bags : List BagRecord
  defaults : List (String × Nat)
  nextId : Nat
deriving Repr, DecidableEq

/-- First-match association lookup; models a SQL equality lookup on a
column with a uniqueness constraint. -/
def alookup {α : Type} : List (String × α) → String → Option α
  | [], _ => none
  | (k, v) :: rest, key => if k = key then some v else alookup rest key

/-- queries.UserID: SELECT id FROM users WHERE username = $1 (errors when
no row exists, hence Option). -/
def userIdOf (st : BagsState) (username : String) : Option String :=
  alookup st.users username

/-- json.Marshal of the empty Go map. -/
def emptyJsonObject : String := "\x7b\x7d"

/-- HasDefaultBag (bagsdb.go lines 58-70): count over the join of
default_bags and users on user_id, filtered by username. Usernames and
default_bags user ids are unique, so the count is positive exactly when
both lookups succeed. Only the mapping table is consulted; the bags table
is not joined. -/
def hasDefaultBag (st : BagsState) (username : String) : Bool :=
  match alookup st.users username with
  | none => false
  | some uid => (alookup st.defaults uid).isSome

/-- AddBag (bagsdb.go lines 223-238): resolve the user id, insert a bag
row, return the generated id. -/
def addBag (st : BagsState) (username contents : String) : DBRes (Nat × BagsState) :=
  match userIdOf st username with
  | none => .err
  | some uid =>
      .ok (st.nextId,
        { st with
            bags := st.bags ++ [{ id := st.nextId, contents := contents, userId := uid }],
            nextId := st.nextId + 1 })

/-- INSERT ... ON CONFLICT (user_id) DO UPDATE SET bag_id: replace the
value when the key is present, append otherwise. -/
def upsert : List (String × Nat) → String → Nat → List (String × Nat)
  | [], k, v => [(k, v)]
  | (k', v') :: rest, k, v =>
      if k' = k then (k', v) :: rest else (k', v') :: upsert rest k v

/-- SetDefaultBag (bagsdb.go lines 205-221). -/
def setDefaultBag (st : BagsState) (username : String) (bagId : Nat) : DBRes BagsState :=
  match userIdOf st username with
  | none => .err
  | some uid => .ok { st with defaults := upsert st.defaults uid bagId }

/-- createDefaultBag (bagsdb.go lines 138-170): marshal the empty map, add
the bag, set it as the default, resolve the user id, return the record. -/
def createDefaultBag (st : BagsState) (username : String) : DBRes (BagRecord × BagsState) :=
  match addBag st username emptyJsonObject with
  | .err => .err
  | .ok (newBagId, st1) =>
      match setDefaultBag st1 username newBagId with
      | .err => .err
      | .ok st2 =>
          match userIdOf st2 username with
          | none => .err
          | some uid =>
              .ok ({ id := newBagId, contents := emptyJsonObject, userId := uid }, st2)

/-- Fetch of a bags row by its primary key. -/
def bagsFind : List BagRecord → Nat → Option BagRecord
  | [], _ => none
  | b :: rest, bid => if b.id = bid then some b else bagsFind rest bid

/-- The row returned by the SELECT in GetDefaultBag (bagsdb.go lines
189-195): bags JOIN default_bags ON b.id = d.bag_id JOIN users ON
d.user_id = u.id WHERE u.username = $1, read with QueryRow. -/
def getDefaultBagQuery (st : BagsState) (username : String) : Option BagRecord :=
  match alookup st.users username with
  | none => none
  | some uid =>
      match alookup st.defaults uid with
      | none => none
      | some bid => bagsFind st.bags bid

/-- GetDefaultBag (bagsdb.go lines 173-202): if the user has no default
mapping, create one; otherwise run the join query, and fail with
sql.ErrNoRows when it produces no row. -/
def getDefaultBag (st : BagsState) (username : String) : DBRes (BagRecord × BagsState) :=
  if !(hasDefaultBag st username) then
    createDefaultBag st username
  else
    match getDefaultBagQuery st username with
    | none => .err
    | some rec => .ok (rec, st)

/-- DeleteBag (bagsdb.go lines 271-284): resolve the user id and delete
the bag rows matching both id and user_id (no error when none match). -/
def deleteBag (st : BagsState) (username : String) (bagId : Nat) : DBRes BagsState :=
  match userIdOf st username with
  | none => .err
  | some uid =>
      .ok { st with bags := st.bags.filter (fun b => !(b.id == bagId && b.userId == uid)) }

/-- DeleteDefaultBag (bagsdb.go lines 289-300): fetch the default bag and
delete the underlying bag row. The default_bags mapping row is not
touched. -/
def deleteDefaultBag (st : BagsState) (username : String) : DBRes BagsState :=
  match getDefaultBag st username with
  | .err => .err
  | .ok (rec, st1) => deleteBag st1 username rec.id

/-! ### Bags handler flow (bags.go) -/

/-- The regexp replace of the pattern matching the first at-sign to the
end of the string, applied in AddUsernameSuffix. -/
def stripDomain (s : String) : String :=
  String.mk (s.toList.takeWhile (fun c => c ≠ '@'))

/-- strings.Trim(domain, cutset of the at-sign): drop leading and
trailing at-signs. -/
def trimAtSigns (s : String) : String :=
  String.mk (((s.toList.dropWhile (fun c => c = '@')).reverse.dropWhile
    (fun c => c = '@')).reverse)

/-- AddUsernameSuffix (bags.go lines 51-54). -/
def addUsernameSuffix (username domain : String) : String :=
  stripDomain username ++ "@" ++ trimAtSigns domain

/-- getUser (bags.go lines 61-82): returns the suffixed username, the
HTTP status and whether an error was returned. On the error paths the
returned username is the empty string. -/
def bagsGetUser (st : BagsState) (vars : Option String) (domain : String) :
    String × Nat × Bool :=
  match vars with
  | none => ("", 400, true)
  | some v =>
      let username := addUsernameSuffix v domain
      if (alookup st.users username).isSome then (username, 200, false)
      else ("", 404, true)

/-- Observable things the GetDefaultBag handler does: write a response
with a status, or invoke the BagsAPI GetDefaultBag store operation. -/
inductive HEvent where
  | resp (status : Nat)
  | apiGetDefaultBag (username : String)
deriving Repr, DecidableEq

/-- The GetDefaultBag handler (bags.go lines 167-196). After a getUser
failure it writes the error response but does not return, so the store
call runs with the empty username and a second response is written. -/
def getDefaultBagHandler (st : BagsState) (vars : Option String) (domain : String) :
    List HEvent × BagsState :=
  match bagsGetUser st vars domain with
  | (username, status, hasErr) =>
      let pre : List HEvent := if hasErr then [.resp status] else []
      match getDefaultBag st username with
      | .err => (pre ++ [.apiGetDefaultBag username, .resp 500], st)
      | .ok (_, st') => (pre ++ [.apiGetDefaultBag username, .resp 200], st')

/-- The record createDefaultBag returns for a user with database id
`uid`: the freshly generated bag id, empty-object contents, and the
user's id. -/
def newDefaultBagRecord (st : BagsState) (uid : String) : BagRecord :=
  { id := st.nextId, contents := emptyJsonObject, userId := uid }

/-- The store state after createDefaultBag succeeds for a user with
database id `uid` that had no default mapping: one new bag row, one new
default mapping, and an advanced id sequence. -/
def bagsAfterCreate (st : BagsState) (uid : String) : BagsState :=
  { st with
      bags := st.bags ++ [newDefaultBagRecord st uid],
      defaults := st.defaults ++ [(uid, st.nextId)],
      nextId := st.nextId + 1 }

/-! ### Global alerts (alertsdb.go) -/

/-- A row of the global_alerts table. Timestamps are integers; a nullable
column is an Option. -/
structure AlertRow where
  startDate : Option Int
  endDate : Option Int
  alert : String
deriving Repr, DecidableEq

/-- sql.NullTime: a time together with a validity flag; the zero value of
the time type is 0. -/
structure GoNullTime where
  time : Int
  valid : Bool
deriving Repr, DecidableEq

/-- GlobalAlertDBRecord (alertsdb.go lines 10-14). -/
structure GlobalAlertDBRecord where
  startDate : GoNullTime
  endDate : GoNullTime
  alert : String
deriving Repr, DecidableEq

/-- GlobalAlertRecord (alertsdb.go lines 17-21): the service-level record;
the date fields are pointers, modelled as Option. -/
structure GlobalAlertRecord where
  startDate : Option Int
  endDate : Option Int
  alert : String
deriving Repr, DecidableEq

/-- Scanning a nullable column into sql.NullTime: NULL gives the invalid
zero value. -/
def scanNull : Option Int → GoNullTime
  | none => { time := 0, valid := false }
  | some t => { time := t, valid := true }

/-- Scanning a row into a GlobalAlertDBRecord. -/
def scanRow (r : AlertRow) : GlobalAlertDBRecord :=
  { startDate := scanNull r.startDate, endDate := scanNull r.endDate, alert := r.alert }

/-- ToService (alertsdb.go lines 24-35): the end date pointer is always
taken (even of an invalid NullTime, yielding the zero time); the start
date pointer only when valid. -/
def ToService (dbr : GlobalAlertDBRecord) : GlobalAlertRecord :=
  { startDate := if dbr.startDate.valid then some dbr.startDate.time else none
    endDate := some dbr.endDate.time
    alert := dbr.alert }

/-- Result of a Go call that may return a value, return an error, or
panic at runtime. -/
inductive GoResult (α : Type) where
  | ok (a : α)
  | errored
  | panicked
deriving Repr, DecidableEq

/-- ToDB (alertsdb.go lines 38-49): building the end-date NullTime
dereferences the EndDate pointer unconditionally, panicking when it is
nil; its validity additionally requires a non-zero time. The start date is
copied only when present and non-zero, otherwise the invalid zero value
remains. -/
def ToDB (r : GlobalAlertRecord) : GoResult GlobalAlertDBRecord :=
  match r.endDate with
  | none => .panicked
  | some e =>
      .ok { startDate :=
              match r.startDate with
              | none => { time := 0, valid := false }
              | some s => if s = 0 then { time := 0, valid := false } else { time := s, valid := true }
            endDate := { time := e, valid := decide (e ≠ 0) }
            alert := r.alert }

/-- Writing a NullTime parameter: NULL when invalid. -/
def nullToColumn (n : GoNullTime) : Option Int :=
  if n.valid then some n.time else none

/-- insertAlert (alertsdb.go lines 134-143): convert with ToDB, then
insert the row. -/
def insertAlert (table : List AlertRow) (r : GlobalAlertRecord) : GoResult (List AlertRow) :=
  match ToDB r with
  | .panicked => .panicked
  | .errored => .errored
  | .ok dbr =>
      .ok (table ++ [{ startDate := nullToColumn dbr.startDate,
                       endDate := nullToColumn dbr.endDate,
                       alert := dbr.alert }])

/-- The ORDER BY end_date ASC key: NULL sorts last (ascending order with
default NULLS LAST). -/
def endKey (r : AlertRow) : WithTop Int :=
  match r.endDate with
  | some e => (e : WithTop Int)
  | none => ⊤

/-- Row comparison used by ORDER BY end_date ASC. -/
def endLe (a b : AlertRow) : Prop := endKey a ≤ endKey b

instance : DecidableRel endLe :=
  fun a b => inferInstanceAs (Decidable (endKey a ≤ endKey b))

instance : IsTotal AlertRow endLe :=
  ⟨fun a b => le_total (endKey a) (endKey b)⟩

instance : IsTrans AlertRow endLe :=
  ⟨fun _ _ _ hab hbc => le_trans hab hbc⟩

/-- The WHERE clause of getActiveAlerts (alertsdb.go lines 107-108) under
SQL three-valued logic: a NULL start date satisfies the first conjunct; a
comparison against a NULL end date is not true, so the row is dropped. -/
def sqlActive (now : Int) (r : AlertRow) : Bool :=
  (match r.startDate with
   | none => true
   | some s => decide (s ≤ now)) &&
  (match r.endDate with
   | none => false
   | some e => decide (now ≤ e))

/-- getAllAlerts (alertsdb.go lines 72-99): every row, ordered by
ascending end date, scanned and converted to service records. -/
def getAllAlerts (table : List AlertRow) : List GlobalAlertRecord :=
  (List.insertionSort endLe table).map (fun r => ToService (scanRow r))

/-- getActiveAlerts (alertsdb.go lines 102-131): the rows passing the
activity window filter at the current time, ordered by ascending end
date, scanned and converted to service records. -/
def getActiveAlerts (table : List AlertRow) (now : Int) : List GlobalAlertRecord :=
  (List.insertionSort endLe (table.filter (sqlActive now))).map
    (fun r => ToService (scanRow r))

/-- The activity predicate exactly as the claim states it: the start date
is null or now is at least the start date, and now is at most the end
date (which therefore exists). -/
def claimActive (now : Int) (r : AlertRow) : Prop :=
  (r.startDate = none ∨ ∃ s, r.startDate = some s ∧ s ≤ now) ∧
  (∃ e, r.endDate = some e ∧ now ≤ e)

/-! ### Preferences store and DELETE handler -/

/-- The relational state behind the preferences handlers: the users table
(username to users.id, usernames unique) and the user_preferences table
(user_id to the stored payload). -/
structure PrefsState where
  users : List (String × String)
  prefs : List (String × String)
deriving Repr, DecidableEq

/-- Association lookup over a list of string pairs (users.username is
unique). -/
def palookup : List (String × String) → String → Option String
  | [], _ => none
  | (k, v) :: rest, key => if k = key then some v else palookup rest key

/-- isUser: queries.IsUser on the users table. -/
def isUserP (st : PrefsState) (username : String) : Bool :=
  (palookup st.users username).isSome

/-- hasPreferences: COUNT over the join of user_preferences and users on
user_id filtered by username, compared with zero. -/
def hasPreferencesP (st : PrefsState) (username : String) : Bool :=
  match palookup st.users username with
  | none => false
  | some uid => st.prefs.any (fun p => p.1 == uid)

/-- deletePreferences: resolve the user id (error when absent), delete
the rows with that user_id. -/
def deletePreferencesP (st : PrefsState) (username : String) : DBRes PrefsState :=
  match palookup st.users username with
  | none => .err
  | some uid => .ok { st with prefs := st.prefs.filter (fun p => !(p.1 == uid)) }

/-- Store operations the DELETE preferences handler can issue. -/
inductive PrefsOp where
  | isUserOp
  | hasPrefsOp
  | deletePrefsOp
deriving Repr, DecidableEq

/-- handleNonUser response body, as pinned by the tests: a one-field JSON
object naming the user, followed by a newline. -/
def handleNonUserBody (username : String) : String :=
  "\x7b\"user\":\"" ++ username ++ "\"\x7d\n"

/-- DeleteRequest (preferences handler, searchesdb.go lines 472-509):
check the path variable, the user, then existing preferences; when the
user has none, return without writing (the HTTP layer then sends status
200 with an empty body); otherwise delete. Returns the response, the
trace of store operations issued, and the resulting store. -/
def deleteRequestHandler (st : PrefsState) (vars : Option String) :
    (Nat × String) × List PrefsOp × PrefsState :=
  match vars with
  | none => ((400, "Missing username in URL"), [], st)
  | some username =>
      if !(isUserP st username) then
        ((404, handleNonUserBody username), [.isUserOp], st)
      else if !(hasPreferencesP st username) then
        ((200, ""), [.isUserOp, .hasPrefsOp], st)
      else
        match deletePreferencesP st username with
        | .err => ((500, "error deleting preferences"),
                   [.isUserOp, .hasPrefsOp, .deletePrefsOp], st)
        | .ok st' => ((200, ""), [.isUserOp, .hasPrefsOp, .deletePrefsOp], st')

/-! ## Helper lemmas -/

theorem alookup_append_of_none {α : Type} (l1 l2 : List (String × α)) (k : String)
    (h : alookup l1 k = none) : alookup (l1 ++ l2) k = alookup l2 k := by
  induction l1 with
  | nil => rfl
  | cons p rest ih =>
      obtain ⟨k', v'⟩ := p
      by_cases hk : k' = k
      · simp [alookup, hk] at h
      · simp only [List.cons_append, alookup, if_neg hk] at h ⊢
        exact ih h

theorem upsert_of_none (l : List (String × Nat)) (k : String) (v : Nat)
    (h : alookup l k = none) : upsert l k v = l ++ [(k, v)] := by
  induction l with
  | nil => rfl
  | cons p rest ih =>
      obtain ⟨k', v'⟩ := p
      by_cases hk : k' = k
      · simp [alookup, hk] at h
      · simp only [alookup, if_neg hk] at h
        simp only [upsert, if_neg hk, List.cons_append]
        exact congrArg _ (ih h)

theorem bags_find_append (l1 l2 : List BagRecord) (n : Nat)
    (h : ∀ b ∈ l1, b.id ≠ n) :
    bagsFind (l1 ++ l2) n = bagsFind l2 n := by
  induction l1 with
  | nil => rfl
  | cons b rest ih =>
      have hb : b.id ≠ n := h b (List.mem_cons_self b rest)
      simp only [List.cons_append, bagsFind, if_neg hb]
      exact ih (fun x hx => h x (List.mem_cons_of_mem _ hx))

/-! ## Claim theorems: the envelope normalizer -/

/-- C6: for every payload that decodes to a top-level JSON object lacking
the wrapper key, wrapping with convertPrefs produces exactly the
one-entry wrapper object, and normalizing that wrapper object with
wrap set to false yields the original payload back. -/
theorem convertPrefs_wrap_then_unwrap (m : List (String × GoVal))
    (h : goLookup m "preferences" = none) :
    convertPrefs (.parsed m) true = .ok [("preferences", GoVal.obj m)] ∧
    convertPrefs (.parsed [("preferences", GoVal.obj m)]) false = .ok m := by
  constructor
  · simp [convertPrefs, convertPrefsBody, h]
  · simp [convertPrefs, convertPrefsBody, goLookup]

/-- Witness for C6 at a concrete one-field payload. -/
theorem convertPrefs_wrap_then_unwrap_witness :
    convertPrefs (.parsed [("a", GoVal.null)]) true =
      .ok [("preferences", GoVal.obj [("a", GoVal.null)])] ∧
    convertPrefs (.parsed [("preferences", GoVal.obj [("a", GoVal.null)])]) false =
      .ok [("a", GoVal.null)] :=
  convertPrefs_wrap_then_unwrap [("a", GoVal.null)] rfl

/-- C10: convertPrefs with wrap set to false performs an unchecked type
assertion: whenever the decoded payload maps the wrapper key to anything
that is not an object, the call panics instead of returning an error. -/
theorem convertPrefs_unwrap_nonobject_panics (m : List (String × GoVal)) (v : GoVal)
    (h1 : goLookup m "preferences" = some v) (h2 : ∀ fields, v ≠ GoVal.obj fields) :
    convertPrefs (.parsed m) false = .panicked := by
  cases v with
  | null => simp [convertPrefs, convertPrefsBody, h1]
  | boolean b => simp [convertPrefs, convertPrefsBody, h1]
  | num n => simp [convertPrefs, convertPrefsBody, h1]
  | str s => simp [convertPrefs, convertPrefsBody, h1]
  | arr xs => simp [convertPrefs, convertPrefsBody, h1]
  | obj fields => exact absurd rfl (h2 fields)

/-- Witness for C10: a payload whose wrapper key holds a number. -/
theorem convertPrefs_unwrap_nonobject_panics_witness :
    convertPrefs (.parsed [("preferences", GoVal.num 42)]) false = .panicked :=
  convertPrefs_unwrap_nonobject_panics [("preferences", GoVal.num 42)] (GoVal.num 42)
    rfl (fun _ h => GoVal.noConfusion h)

/-- C4 counterexample: with wrap set to false, normalizing a payload
whose canonical payload itself contains the wrapper key is not
idempotent: the first application strips one wrapper, the second strips
another, giving a different result. -/
theorem convertPrefs_unwrap_not_idempotent :
    convertPrefs
      (.parsed [("preferences", GoVal.obj [("preferences", GoVal.obj [])])]) false =
      .ok [("preferences", GoVal.obj [])] ∧
    convertPrefs (.parsed [("preferences", GoVal.obj [])]) false = .ok [] ∧
    ConvResult.ok ([] : List (String × GoVal)) ≠
      ConvResult.ok [("preferences", GoVal.obj [])] := by
  refine ⟨rfl, rfl, ?_⟩
  simp

/-- C4 amended: convertPrefs is idempotent for wrap set to true on every
payload on which it succeeds; for wrap set to false it is idempotent on
exactly those successful results that do not themselves contain the
wrapper key. -/
theorem convertPrefs_idempotent :
    (∀ (input : PrefsPayload) (r : List (String × GoVal)),
        convertPrefs input true = .ok r → convertPrefs (.parsed r) true = .ok r) ∧
    (∀ (input : PrefsPayload) (r : List (String × GoVal)),
        convertPrefs input false = .ok r → goLookup r "preferences" = none →
        convertPrefs (.parsed r) false = .ok r) := by
  constructor
  · intro input r h
    cases input with
    | malformed => simp [convertPrefs] at h
    | empty =>
        simp [convertPrefs, convertPrefsBody, goLookup] at h
        subst h
        simp [convertPrefs, convertPrefsBody, goLookup]
    | parsed m =>
        rcases hm : goLookup m "preferences" with _ | v
        · simp [convertPrefs, convertPrefsBody, hm] at h
          subst h
          simp [convertPrefs, convertPrefsBody, goLookup]
        · simp [convertPrefs, convertPrefsBody, hm] at h
          subst h
          simp [convertPrefs, convertPrefsBody, hm]
  · intro input r _ hr
    simp [convertPrefs, convertPrefsBody, hr]

/-- Witness for C4 amended: both wrap directions at concrete payloads. -/
theorem convertPrefs_idempotent_witness :
    convertPrefs (.parsed [("preferences", GoVal.obj [("a", GoVal.num 1)])]) true =
      .ok [("preferences", GoVal.obj [("a", GoVal.num 1)])] ∧
    convertPrefs (.parsed [("a", GoVal.num 1)]) false = .ok [("a", GoVal.num 1)] :=
  ⟨convertPrefs_idempotent.1 (.parsed [("a", GoVal.num 1)]) _ rfl,
   convertPrefs_idempotent.2 (.parsed [("a", GoVal.num 1)]) _ rfl rfl⟩

/-- C5 counterexample: on an empty stored payload with wrap set to true,
convertPrefs returns a one-entry mapping (the wrapper key bound to the
nil payload), not a mapping with no entries. -/
theorem convertPrefs_empty_wrapped_nonempty :
    convertPrefs .empty true = .ok [("preferences", GoVal.obj [])] ∧
    ([("preferences", GoVal.obj [])] : List (String × GoVal)).length ≠ 0 :=
  ⟨rfl, by decide⟩

/-- C5 amended: normalizing an empty stored payload succeeds for both
wrap values; with wrap set to false it returns the empty mapping, with
wrap set to true it returns the one-entry mapping binding the wrapper key
to the empty payload. -/
theorem convertPrefs_empty_payload :
    convertPrefs .empty false = .ok [] ∧
    convertPrefs .empty true = .ok [("preferences", GoVal.obj [])] :=
  ⟨rfl, rfl⟩

/-! ## Claim theorems: the default-bag manager -/

/-- C1: for a user with no default-bag mapping, GetDefaultBag creates
exactly one new bag whose contents are the empty JSON object, records its
id as the user's default, and returns that record; calling GetDefaultBag
again on the resulting store returns a record with the same bag id (and
changes nothing). The hypotheses say the user row exists, the user has no
default mapping, and the id sequence is fresh for the bags table. -/
theorem getDefaultBag_fresh_user (st : BagsState) (username uid : String)
    (hU : alookup st.users username = some uid)
    (hND : alookup st.defaults uid = none)
    (hFresh : ∀ b ∈ st.bags, b.id ≠ st.nextId) :
    getDefaultBag st username = .ok (newDefaultBagRecord st uid, bagsAfterCreate st uid) ∧
    (bagsAfterCreate st uid).bags = st.bags ++ [newDefaultBagRecord st uid] ∧
    getDefaultBag (bagsAfterCreate st uid) username =
      .ok (newDefaultBagRecord st uid, bagsAfterCreate st uid) := by
  have hNoDefault : hasDefaultBag st username = false := by
    simp [hasDefaultBag, hU, hND]
  refine ⟨?_, rfl, ?_⟩
  · simp only [getDefaultBag, hNoDefault, Bool.not_false, if_pos]
    simp only [createDefaultBag, addBag, userIdOf, hU, setDefaultBag,
      upsert_of_none st.defaults uid st.nextId hND, bagsAfterCreate, newDefaultBagRecord]
  · have hHas : hasDefaultBag (bagsAfterCreate st uid) username = true := by
      simp [hasDefaultBag, bagsAfterCreate, hU,
        alookup_append_of_none st.defaults [(uid, st.nextId)] uid hND, alookup]
    have hQuery : getDefaultBagQuery (bagsAfterCreate st uid) username =
        some (newDefaultBagRecord st uid) := by
      simp only [getDefaultBagQuery, bagsAfterCreate, hU,
        alookup_append_of_none st.defaults [(uid, st.nextId)] uid hND]
      simp [alookup, newDefaultBagRecord]
      rw [bags_find_append st.bags _ st.nextId hFresh]
      simp [bagsFind]
    simp [getDefaultBag, hHas, hQuery]

/-- Witness for C1: a fresh one-user store. -/
theorem getDefaultBag_fresh_user_witness :
    getDefaultBag { users := [("alice", "u1")], bags := [], defaults := [], nextId := 0 }
      "alice" =
      .ok ({ id := 0, contents := emptyJsonObject, userId := "u1" },
           { users := [("alice", "u1")],
             bags := [{ id := 0, contents := emptyJsonObject, userId := "u1" }],
             defaults := [("u1", 0)], nextId := 1 }) := by
  have h := getDefaultBag_fresh_user
    { users := [("alice", "u1")], bags := [], defaults := [], nextId := 0 }
    "alice" "u1" rfl rfl (by intro b hb; cases hb)
  simpa [bagsAfterCreate, newDefaultBagRecord] using h.1

/-- C2: the state DeleteDefaultBag leaves behind (bag row deleted, the
default_bags mapping still pointing at the deleted id) makes the next
GetDefaultBag fail with a no-rows error instead of recreating a fresh
default bag: HasDefaultBag consults only the mapping table, so the code
takes the join-query path, which finds no row. This contradicts the
comment on DeleteDefaultBag, which promises recreation on the next
retrieval. -/
theorem deleteDefaultBag_then_get_errors :
    deleteDefaultBag
      { users := [("alice", "u1")],
        bags := [{ id := 0, contents := emptyJsonObject, userId := "u1" }],
        defaults := [("u1", 0)], nextId := 1 } "alice" =
      .ok { users := [("alice", "u1")], bags := [], defaults := [("u1", 0)], nextId := 1 } ∧
    hasDefaultBag
      { users := [("alice", "u1")], bags := [], defaults := [("u1", 0)], nextId := 1 }
      "alice" = true ∧
    getDefaultBag
      { users := [("alice", "u1")], bags := [], defaults := [("u1", 0)], nextId := 1 }
      "alice" = .err :=
  ⟨rfl, rfl, rfl⟩

/-- C3: on a request whose path username does not resolve to an existing
user, the GetDefaultBag handler writes the 404 response but, lacking a
return, still invokes the store operation (with the empty username) and
then writes a second, 500 response. The event trace shows a store
operation after the 404. -/
theorem getDefaultBagHandler_store_op_after_404 :
    getDefaultBagHandler
      { users := [("bob@d", "u1")], bags := [], defaults := [], nextId := 0 }
      (some "mary") "d" =
      ([HEvent.resp 404, HEvent.apiGetDefaultBag "", HEvent.resp 500],
       { users := [("bob@d", "u1")], bags := [], defaults := [], nextId := 0 }) :=
  rfl

/-! ## Claim theorems: global alerts -/

/-- C7: getActiveAlerts returns exactly the alerts satisfying the
activity window (start date null or at most now, and now at most the end
date) at query time, and both getAllAlerts and getActiveAlerts return
their alerts ordered by ascending end date. The returned service records
are the image of a row list that is a permutation of the (filtered) table
and is sorted by the end-date key; the SQL filter agrees with the
claimed activity predicate on every row. -/
theorem alerts_queries_spec (table : List AlertRow) (now : Int) :
    (∃ rows : List AlertRow,
        getActiveAlerts table now = rows.map (fun r => ToService (scanRow r)) ∧
        rows.Perm (table.filter (sqlActive now)) ∧
        List.Sorted endLe rows ∧
        ∀ r : AlertRow, sqlActive now r = true ↔ claimActive now r) ∧
    (∃ rows : List AlertRow,
        getAllAlerts table = rows.map (fun r => ToService (scanRow r)) ∧
        rows.Perm table ∧
        List.Sorted endLe rows) := by
  constructor
  · refine ⟨List.insertionSort endLe (table.filter (sqlActive now)), rfl,
      List.perm_insertionSort endLe _, List.sorted_insertionSort endLe _, ?_⟩
    intro r
    cases hs : r.startDate <;> cases he : r.endDate <;>
      simp [sqlActive, claimActive, hs, he]
  · exact ⟨List.insertionSort endLe table, rfl,
      List.perm_insertionSort endLe table, List.sorted_insertionSort endLe table⟩

/-- C8 counterexample: insertAlert on a record with an absent end date
panics (nil-pointer dereference inside ToDB); it does not return an
error to the caller. -/
theorem insertAlert_nil_end_panics :
    insertAlert [] { startDate := none, endDate := none, alert := "maintenance" } =
      .panicked ∧
    insertAlert [] { startDate := none, endDate := none, alert := "maintenance" } ≠
      .errored :=
  ⟨rfl, by decide⟩

/-- C8 amended: insertAlert never silently succeeds on a record with an
absent end date, but the failure mode is a panic in ToDB (a nil-pointer
dereference), not an error report; an absent start date is accepted
without error and stored as NULL. -/
theorem insertAlert_end_date_required (table : List AlertRow) :
    (∀ (s : Option Int) (a : String),
        insertAlert table { startDate := s, endDate := none, alert := a } = .panicked) ∧
    (∀ (e : Int) (a : String), e ≠ 0 →
        insertAlert table { startDate := none, endDate := some e, alert := a } =
          .ok (table ++ [{ startDate := none, endDate := some e, alert := a }])) := by
  constructor
  · intro s a; rfl
  · intro e a h
    have hd : decide (e ≠ 0) = true := decide_eq_true h
    simp [insertAlert, ToDB, nullToColumn, hd]

/-- Witness for C8 amended. -/
theorem insertAlert_end_date_required_witness :
    insertAlert [] { startDate := none, endDate := some 1, alert := "x" } =
      .ok [{ startDate := none, endDate := some 1, alert := "x" }] ∧
    insertAlert [] { startDate := some 2, endDate := none, alert := "x" } = .panicked :=
  ⟨(insertAlert_end_date_required []).2 1 "x" (by decide),
   (insertAlert_end_date_required []).1 (some 2) "x"⟩

/-! ## Claim theorems: preferences DELETE handler -/

/-- C9: for an existing user with no stored preferences, the DELETE
preferences handler responds 200 with an empty body, issues no delete
against the store (the operation trace stops after the existence
checks), and leaves the store unchanged. -/
theorem deleteRequest_no_prefs (st : PrefsState) (username : String)
    (hU : isUserP st username = true)
    (hP : hasPreferencesP st username = false) :
    deleteRequestHandler st (some username) =
      ((200, ""), [PrefsOp.isUserOp, PrefsOp.hasPrefsOp], st) := by
  simp [deleteRequestHandler, hU, hP]

/-- Witness for C9: a user present in the users table with an empty
preferences table. -/
theorem deleteRequest_no_prefs_witness :
    deleteRequestHandler { users := [("bob", "u1")], prefs := [] } (some "bob") =
      ((200, ""), [PrefsOp.isUserOp, PrefsOp.hasPrefsOp],
       ({ users := [("bob", "u1")], prefs := [] } : PrefsState)) :=
  deleteRequest_no_prefs { users := [("bob", "u1")], prefs := [] } "bob" rfl rfl

end UserInfo
